import Mathlib

/-
Verification of the Tsing terrain-exploration core (src/src/core.py) against
its natural-language specification.

The Python source is shallowly embedded over the rationals.  Python floats
become `ℚ`; Python dicts become association lists (insertion only ever adds
an absent key, so a cons-based insert has the same lookup semantics); the
external coherent-noise function `noise.pnoise2` (a pure deterministic
library function, not part of this repository) is a parameter
`pn : Pnoise` of the model, taking the two coordinates, the octave count
and the persistence / lacunarity arguments used at the call sites.
-/

namespace Tsing

/-- Signature of the external `noise.pnoise2` function:
arguments are x, y, octaves, persistence, lacunarity. -/
abbrev Pnoise := ℚ → ℚ → ℕ → ℚ → ℚ → ℚ

/- Module-level constants of src/src/core.py. -/

def TERRAIN_SCALE : ℚ := 5 / 100
def HEIGHT_SCALE : ℚ := 25
def MOUSE_SENSITIVITY : ℚ := 15 / 100
def PLAYER_SPEED : ℚ := 9 / 2
def GRAVITY : ℚ := 49 / 5
def JUMP_FORCE : ℚ := 6
def PLAYER_HEIGHT : ℚ := 9 / 5
def MAX_CLIMB_ANGLE : ℚ := 45
def MAX_JUMP_HEIGHT : ℚ := 6 / 5
def TERRAIN_BLOCK_SIZE : ℚ := 1
def SMOOTH_TERRAIN : Bool := true
def STEP_HEIGHT : ℚ := 1 / 2

/- Terrain type constants (ints in the source). -/

def PLAINS : ℕ := 0
def HILLS : ℕ := 1
def MOUNTAINS : ℕ := 2
def PLATEAU : ℕ := 3
def BASIN : ℕ := 4
def CANYON : ℕ := 5
def VALLEY : ℕ := 6

/- Flight mode constants. -/

def NORMAL_MODE : ℕ := 0
def FLIGHT_MODE : ℕ := 1
def FREE_FLIGHT_MODE : ℕ := 2

/- Flight control parameters. -/

def BASE_LIFT : ℚ := 5
def MAX_LIFT : ℚ := 15
def LIFT_INCREMENT : ℚ := 1
def HOVER_LIFT : ℚ := 49 / 5
def FLIGHT_SPEED_MULTIPLIER : ℚ := 2
def FLIGHT_CONTROL_SENSITIVITY : ℚ := 1 / 2

/-- Floor of a rational. -/
def qfloor (q : ℚ) : ℤ := ⌊q⌋

/-- Python `int()` applied to a rational: truncation toward zero. -/
def pyInt (q : ℚ) : ℤ := if 0 ≤ q then qfloor q else -qfloor (-q)

/-- Round half to even to the nearest integer, as Python's `round` does. -/
def roundHalfEven (q : ℚ) : ℤ :=
  let f := qfloor q
  let r := q - f
  if r < 1 / 2 then f
  else if 1 / 2 < r then f + 1
  else if f % 2 = 0 then f else f + 1

/-- Python `round(q, 2)`: round to two decimal places. -/
def round2 (q : ℚ) : ℚ := (roundHalfEven (q * 100) : ℚ) / 100

/-- Lookup in an association list (Python dict membership / indexing). -/
def alookup {α β : Type} [DecidableEq α] : List (α × β) → α → Option β
  | [], _ => none
  | (k, v) :: rest, k2 => if k = k2 then some v else alookup rest k2

/-- State of the `Terrain` object.  `vertices` is the lattice-point noise
cache, `erosion_cache` the memoization cache of `get_height`, keyed by the
query coordinates rounded to two decimals. -/
structure Terrain where
  vertices : List ((ℤ × ℤ) × ℚ)
  generated_area : List (ℤ × ℤ)
  block_size : ℚ
  smooth : Bool
  erosion_cache : List ((ℚ × ℚ) × ℚ)
deriving DecidableEq, Repr

/-- A freshly constructed `Terrain` with the given block size and smoothing
flag (`Terrain.__init__` with the module globals). -/
def terrain0 (bs : ℚ) (sm : Bool) : Terrain :=
  { vertices := [], generated_area := [], block_size := bs, smooth := sm,
    erosion_cache := [] }

section Core

variable (pn : Pnoise) (SEED : ℤ)

/-- Lookup-or-compute of one lattice vertex inside the smooth branch of
`Terrain.get_height`: `self.vertices[(px, pz)]`, computed as
`pnoise2(px * TERRAIN_SCALE * block_size + SEED, pz * ... + SEED,
octaves=6, persistence=0.5, lacunarity=1.8) * HEIGHT_SCALE` when absent. -/
def vertexAt (t : Terrain) (px pz : ℤ) : ℚ × Terrain :=
  match alookup t.vertices (px, pz) with
  | some h => (h, t)
  | none =>
    let h := pn (px * TERRAIN_SCALE * t.block_size + SEED)
                (pz * TERRAIN_SCALE * t.block_size + SEED) 6 (1 / 2) (9 / 5) *
             HEIGHT_SCALE
    (h, { t with vertices := ((px, pz), h) :: t.vertices })

/-- Embedding of `Terrain.get_height`.  Checks the `erosion_cache` under the key
`(round(x, 2), round(z, 2))`; on a miss computes either the nearest-lattice
sample (non-smooth) or the four-corner blend (smooth, corner order
`(i, j) ∈ [(0,0), (0,1), (1,0), (1,1)]` with the source's weights), then
stores the result under the rounded key. -/
def get_height (t : Terrain) (x z : ℚ) : ℚ × Terrain :=
  let x_adj := x / t.block_size
  let z_adj := z / t.block_size
  let cache_key := (round2 x, round2 z)
  match alookup t.erosion_cache cache_key with
  | some h => (h, t)
  | none =>
    if ¬ t.smooth then
      let x0 := pyInt x_adj
      let z0 := pyInt z_adj
      let height := pn (x0 * TERRAIN_SCALE + SEED) (z0 * TERRAIN_SCALE + SEED)
                       6 (1 / 2) (9 / 5) * HEIGHT_SCALE
      (height, { t with erosion_cache := (cache_key, height) :: t.erosion_cache })
    else
      let x0 := pyInt x_adj
      let z0 := pyInt z_adj
      let dx := x_adj - x0
      let dz := z_adj - z0
      let r0 := vertexAt pn SEED t x0 z0
      let r1 := vertexAt pn SEED r0.2 x0 (z0 + 1)
      let r2 := vertexAt pn SEED r1.2 (x0 + 1) z0
      let r3 := vertexAt pn SEED r2.2 (x0 + 1) (z0 + 1)
      let height := r0.1 * (1 - dx) * (1 - dz) + r1.1 * dx * (1 - dz) +
                    r2.1 * (1 - dx) * dz + r3.1 * dx * dz
      (height, { r3.2 with erosion_cache := (cache_key, height) :: r3.2.erosion_cache })

/-- The squared length of the central finite difference computed by
`Terrain.get_slope_angle`, threading the four `get_height` calls through
the cache in source order.  The source returns
`degrees(atan2(sqrt(dx² + dz²), 0.02))`; every comparison of that angle
against a bound strictly between 0° and 90° is equivalent to a rational
comparison of this squared quantity (see `slope_angle_le_45_iff`), which is
how the model expresses the `MAX_CLIMB_ANGLE` tests. -/
def slope_sq (t : Terrain) (x z : ℚ) : ℚ × Terrain :=
  let r1 := get_height pn SEED t (x + 1 / 100) z
  let r2 := get_height pn SEED r1.2 (x - 1 / 100) z
  let r3 := get_height pn SEED r2.2 x (z + 1 / 100)
  let r4 := get_height pn SEED r3.2 x (z - 1 / 100)
  ((r1.1 - r2.1) ^ 2 + (r3.1 - r4.1) ^ 2, r4.2)

/-- The weighted terrain score of `Terrain.get_terrain_type`:
three noise evaluations combined with weights 0.6 / 0.3 / 0.1. -/
def terrain_score (t : Terrain) (x z : ℚ) : ℚ :=
  let x_adj := x / t.block_size
  let z_adj := z / t.block_size
  let terrain_type_val := pn (x_adj * TERRAIN_SCALE * (1 / 10) + SEED * 2)
                             (z_adj * TERRAIN_SCALE * (1 / 10) + SEED * 2) 1 (1 / 2) 2
  let variation := pn (x_adj * TERRAIN_SCALE * (1 / 2) + SEED * 3)
                      (z_adj * TERRAIN_SCALE * (1 / 2) + SEED * 3) 2 (1 / 2) 2
  let detail := pn (x_adj * TERRAIN_SCALE * 2 + SEED * 4)
                   (z_adj * TERRAIN_SCALE * 2 + SEED * 4) 3 (1 / 2) 2
  terrain_type_val * (6 / 10) + variation * (3 / 10) + detail * (1 / 10)

/-- The score of `Terrain.get_terrain_type` normalized from [-1, 1] to [0, 1]. -/
def normalized_score (t : Terrain) (x z : ℚ) : ℚ :=
  (terrain_score pn SEED t x z + 1) / 2

/-- Embedding of `Terrain.get_terrain_type`: the ascending threshold chain over the
normalized score. -/
def get_terrain_type (t : Terrain) (x z : ℚ) : ℕ :=
  let s := normalized_score pn SEED t x z
  if s < 15 / 100 then BASIN
  else if s < 3 / 10 then PLAINS
  else if s < 45 / 100 then HILLS
  else if s < 6 / 10 then VALLEY
  else if s < 75 / 100 then PLATEAU
  else if s < 9 / 10 then MOUNTAINS
  else CANYON

end Core

/-- The F6 key handler of `Tsin.update` (src/src/core.py lines 1047-1051):
flips the smoothing flag and resets the `vertices` dictionary. -/
def toggle_smooth_terrain (t : Terrain) : Terrain :=
  { t with smooth := ! t.smooth, vertices := [] }

/-- The diagnostic `last_collision` string of `Player.check_movement`,
modelled as an enumeration of the four messages the source can record
(the blocked message interpolates the slope angle; only the branch
identity is diagnostically relevant and modelled). -/
inductive CollisionReason where
  | noneYet
  | walkableSlope
  | steppedUp
  | jumpableObstacle
  | blockedBySlope
deriving DecidableEq, Repr

/-- The pressed-key snapshot consumed by `Player.update_movement` and the
per-mode updates. -/
structure Keys where
  w : Bool
  s : Bool
  a : Bool
  d : Bool
  space : Bool
  lshift : Bool
  tab : Bool
  lctrl : Bool
  f1 : Bool
  lalt : Bool
deriving DecidableEq, Repr

/-- No key pressed. -/
def noKeys : Keys :=
  { w := false, s := false, a := false, d := false, space := false,
    lshift := false, tab := false, lctrl := false, f1 := false, lalt := false }

/-- The kinematic and mode state of `Player` (render-only fields such as
`third_person`, `camera_distance`, `jump_cooldown` and `flight_direction`
are never read by the modelled logic and are omitted). -/
structure Player where
  pos0 : ℚ
  pos1 : ℚ
  pos2 : ℚ
  vel0 : ℚ
  vel1 : ℚ
  vel2 : ℚ
  yaw : ℚ
  pitch : ℚ
  on_ground : Bool
  last_collision : CollisionReason
  current_terrain_type : ℕ
  mode : ℕ
  lift_force : ℚ
  crouching : Bool
  crouch_height : ℚ
  normal_height : ℚ
  free_flight : Bool
  flight_timer : ℚ
  flight_cooldown : ℚ
  max_lift_active : Bool
deriving DecidableEq, Repr

section PlayerOps

variable (pn : Pnoise) (SEED : ℤ)

/-- Embedding of `Player.__init__`: spawn at the origin, one height query seeding the
vertical position, cooldown 0.5, normal mode. -/
def mkPlayer (t : Terrain) : Player × Terrain :=
  let r := get_height pn SEED t 0 0
  ({ pos0 := 0, pos1 := r.1 + PLAYER_HEIGHT, pos2 := 0,
     vel0 := 0, vel1 := 0, vel2 := 0, yaw := 0, pitch := 0,
     on_ground := true, last_collision := .noneYet,
     current_terrain_type := PLAINS, mode := NORMAL_MODE,
     lift_force := BASE_LIFT, crouching := false,
     crouch_height := PLAYER_HEIGHT * (65 / 100), normal_height := PLAYER_HEIGHT,
     free_flight := false, flight_timer := 0, flight_cooldown := 1 / 2,
     max_lift_active := false }, r.2)

/-- Embedding of `Player.can_step_up`: early-out on a negligible displacement, then the
height difference test `0 < height_diff <= STEP_HEIGHT`. -/
def can_step_up (p : Player) (t : Terrain) (dx dz : ℚ) : Bool × Terrain :=
  if |dx| < 1 / 1000 ∧ |dz| < 1 / 1000 then (false, t)
  else
    let r1 := get_height pn SEED t p.pos0 p.pos2
    let r2 := get_height pn SEED r1.2 (p.pos0 + dx) (p.pos2 + dz)
    let height_diff := r2.1 - r1.1
    (decide (0 < height_diff ∧ height_diff ≤ STEP_HEIGHT), r2.2)

/-- Embedding of `Player.can_walk_over`: downhill is always allowed; otherwise allowed
when the slope at the target is at most `MAX_CLIMB_ANGLE` (45°, expressed
by the equivalent squared-difference bound, see `slope_angle_le_45_iff`)
or the height difference is at most `STEP_HEIGHT`. -/
def can_walk_over (p : Player) (t : Terrain) (dx dz : ℚ) : Bool × Terrain :=
  let r1 := get_height pn SEED t p.pos0 p.pos2
  let r2 := get_height pn SEED r1.2 (p.pos0 + dx) (p.pos2 + dz)
  let height_diff := r2.1 - r1.1
  if height_diff < 0 then (true, r2.2)
  else
    let rs := slope_sq pn SEED r2.2 (p.pos0 + dx) (p.pos2 + dz)
    (decide (rs.1 ≤ 1 / 2500) || decide (|height_diff| ≤ STEP_HEIGHT), rs.2)

/-- Embedding of `Player.can_jump_over`: absolute height difference below
`MAX_JUMP_HEIGHT`. -/
def can_jump_over (p : Player) (t : Terrain) (dx dz : ℚ) : Bool × Terrain :=
  let r1 := get_height pn SEED t p.pos0 p.pos2
  let r2 := get_height pn SEED r1.2 (p.pos0 + dx) (p.pos2 + dz)
  (decide (|r2.1 - r1.1| < MAX_JUMP_HEIGHT), r2.2)

/-- Embedding of `Player.check_movement`: the fixed-priority collision policy.  The
step-up branch recomputes the two heights (target first, then current, as
in the source) and snaps the vertical position by their difference; the
blocked branch recomputes the slope for its diagnostic message. -/
def check_movement (p : Player) (t : Terrain) (dx dz : ℚ) :
    Bool × Player × Terrain :=
  let rw := can_walk_over pn SEED p t dx dz
  if rw.1 then (true, { p with last_collision := .walkableSlope }, rw.2)
  else
    let rsu := can_step_up pn SEED p rw.2 dx dz
    if rsu.1 then
      let rt := get_height pn SEED rsu.2 (p.pos0 + dx) (p.pos2 + dz)
      let rc := get_height pn SEED rt.2 p.pos0 p.pos2
      (true, { p with last_collision := .steppedUp,
                      pos1 := p.pos1 + (rt.1 - rc.1) }, rc.2)
    else
      let rj := can_jump_over pn SEED p rsu.2 dx dz
      if rj.1 && ! p.on_ground then
        (true, { p with last_collision := .jumpableObstacle }, rj.2)
      else
        let rs := slope_sq pn SEED rj.2 (p.pos0 + dx) (p.pos2 + dz)
        (false, { p with last_collision := .blockedBySlope }, rs.2)

end PlayerOps

/-- Embedding of `Player.toggle_flight_mode`: gated by the cooldown; Normal → Flight,
Flight → Normal, FreeFlight → Normal, each resetting the timer. -/
def toggle_flight_mode (p : Player) : Player :=
  if 0 < p.flight_timer then p
  else if p.mode = NORMAL_MODE then
    { p with mode := FLIGHT_MODE, free_flight := false, lift_force := BASE_LIFT,
             max_lift_active := false, flight_timer := p.flight_cooldown }
  else if p.mode = FLIGHT_MODE then
    { p with mode := NORMAL_MODE, lift_force := BASE_LIFT, vel1 := 0,
             flight_timer := p.flight_cooldown }
  else if p.mode = FREE_FLIGHT_MODE then
    { p with mode := NORMAL_MODE, lift_force := BASE_LIFT, vel1 := 0,
             flight_timer := p.flight_cooldown }
  else p

/-- Embedding of `Player.toggle_free_flight`: gated by the cooldown; FreeFlight → Flight,
anything else → FreeFlight, each resetting the timer. -/
def toggle_free_flight (p : Player) : Player :=
  if 0 < p.flight_timer then p
  else if p.mode = FREE_FLIGHT_MODE then
    { p with mode := FLIGHT_MODE, flight_timer := p.flight_cooldown }
  else
    { p with mode := FREE_FLIGHT_MODE, free_flight := true,
             flight_timer := p.flight_cooldown }

/-- Embedding of `Player.reset_flight`: unconditional return to normal mode. -/
def reset_flight (p : Player) : Player :=
  { p with mode := NORMAL_MODE, lift_force := BASE_LIFT, free_flight := false,
           vel1 := 0, max_lift_active := false }

/-- Embedding of `Player.increase_lift`. -/
def increase_lift (p : Player) : Player :=
  { p with lift_force := min MAX_LIFT (p.lift_force + LIFT_INCREMENT) }

/-- Embedding of `Player.decrease_lift`. -/
def decrease_lift (p : Player) : Player :=
  { p with lift_force := max 0 (p.lift_force - LIFT_INCREMENT) }

/-- Embedding of `Player.set_hover_lift`. -/
def set_hover_lift (p : Player) : Player :=
  { p with lift_force := HOVER_LIFT }

/-- Embedding of `Player.toggle_max_lift`: sets the lift to `BASE_LIFT` when the flag is
active and to `MAX_LIFT` when it is not, then flips the flag. -/
def toggle_max_lift (p : Player) : Player :=
  if p.max_lift_active then
    { p with lift_force := BASE_LIFT, max_lift_active := ! p.max_lift_active }
  else
    { p with lift_force := MAX_LIFT, max_lift_active := ! p.max_lift_active }

section PlayerTick

variable (pn : Pnoise) (SEED : ℤ)

/-- Embedding of `Player.toggle_crouch(state)`: records the crouch state and rewrites the
vertical position to the current terrain height plus the stance height of
the new state. -/
def toggle_crouch (p : Player) (t : Terrain) (state : Bool) : Player × Terrain :=
  let p1 := { p with crouching := state }
  if p1.crouching then
    let r := get_height pn SEED t p1.pos0 p1.pos2
    ({ p1 with pos1 := r.1 + p1.crouch_height }, r.2)
  else
    let r := get_height pn SEED t p1.pos0 p1.pos2
    ({ p1 with pos1 := r.1 + p1.normal_height }, r.2)

/-- The vertical-resolution tail of `Player.update_normal_movement`
(src/src/core.py lines 685-700): query the terrain height at the new
horizontal position, resolve the crouch state (`toggle_crouch`, which
rewrites the vertical position), clamp to the ground from below, and
apply a jump impulse when grounded with SPACE pressed. -/
def grounded_vertical_resolve (p3 : Player) (t1 : Terrain) (keys : Keys) :
    Player × Terrain :=
  let rh := get_height pn SEED t1 p3.pos0 p3.pos2
  let rc := toggle_crouch pn SEED p3 rh.2 keys.lshift
  let p4 := rc.1
  let ch := if p4.crouching then p4.crouch_height else p4.normal_height
  let p5 :=
    if p4.pos1 < rh.1 + ch then
      { p4 with pos1 := rh.1 + ch, vel1 := 0, on_ground := true }
    else p4
  let p6 :=
    if keys.space && p5.on_ground then
      { p5 with vel1 := JUMP_FORCE, on_ground := false }
    else p5
  (p6, rc.2)

/-- One Grounded-mode tick (`Player.update_normal_movement`): collision
check of the movement intent, gravity, integration, then the
vertical-resolution tail.  The raw W/A/S/D intent projected onto the yaw
basis, normalized and scaled by `PLAYER_SPEED * dt` involves `cos`, `sin`
and `sqrt` over the reals; its value just before the collision check is
supplied as the rational parameter `md`, with `md = (0, 0)` exactly when
the raw intent vector is zero (no movement key pressed, or cancelling
keys), in which case the source skips both the normalization and the
collision check. -/
def update_normal_movement (p : Player) (t : Terrain) (dt : ℚ) (keys : Keys)
    (md : ℚ × ℚ) : Player × Terrain :=
  let r0 : Bool × Player × Terrain :=
    if md = (0, 0) then (true, p, t) else check_movement pn SEED p t md.1 md.2
  let m : ℚ × ℚ := if r0.1 then md else (0, 0)
  let p1 := r0.2.1
  let t1 := r0.2.2
  let p2 := { p1 with vel1 := p1.vel1 - GRAVITY * dt }
  let p3 := { p2 with pos0 := p2.pos0 + m.1 + p2.vel0 * dt,
                      pos2 := p2.pos2 + m.2 + p2.vel2 * dt,
                      pos1 := p2.pos1 + p2.vel1 * dt }
  grounded_vertical_resolve pn SEED p3 t1 keys

/-- One Flight-mode tick (`Player.update_flight_movement`).  As in
`update_normal_movement`, the normalized and speed-scaled horizontal intent
(which here also carries the flight and sprint multipliers) is supplied as
the parameter `md`. -/
def update_flight_movement (p : Player) (t : Terrain) (dt : ℚ) (keys : Keys)
    (md : ℚ × ℚ) : Player × Terrain :=
  let p1 := { p with pos0 := p.pos0 + md.1, pos2 := p.pos2 + md.2 }
  let p2 :=
    if keys.space then { p1 with vel1 := p1.lift_force }
    else if keys.lshift then { p1 with vel1 := -p1.lift_force * (7 / 10) }
    else
      { p1 with vel1 := p1.vel1 +
          (GRAVITY - p1.lift_force) * FLIGHT_CONTROL_SENSITIVITY * dt }
  let p3 := { p2 with pos1 := p2.pos1 + p2.vel1 * dt }
  let rh := get_height pn SEED t p3.pos0 p3.pos2
  let p4 :=
    if p3.pos1 < rh.1 + p3.normal_height then
      { p3 with pos1 := rh.1 + p3.normal_height, vel1 := 0, on_ground := true }
    else { p3 with on_ground := false }
  (p4, rh.2)

/-- One FreeFlight-mode tick (`Player.update_free_flight_movement`).  The
combined forward/right/up direction, built from yaw and pitch and
normalized when nonzero, involves trigonometry and `sqrt`; it is supplied
as the parameter `md3`.  The position integrates it at
`PLAYER_SPEED * FLIGHT_SPEED_MULTIPLIER * 2` with no ground clamp. -/
def update_free_flight_movement (p : Player) (t : Terrain) (dt : ℚ)
    (md3 : ℚ × ℚ × ℚ) : Player × Terrain :=
  let speed := PLAYER_SPEED * FLIGHT_SPEED_MULTIPLIER * 2
  ({ p with pos0 := p.pos0 + md3.1 * speed * dt,
            pos1 := p.pos1 + md3.2.1 * speed * dt,
            pos2 := p.pos2 + md3.2.2 * speed * dt,
            on_ground := false }, t)

/-- Embedding of `Player.update_movement`: decrements the cooldown, applies mouse look,
dispatches the TAB / CTRL / F1 / ALT command combinations, runs the active
mode's update, then refreshes the terrain classification. -/
def update_movement (p : Player) (t : Terrain) (dt : ℚ) (keys : Keys)
    (mouse : ℚ × ℚ) (md : ℚ × ℚ) (md3 : ℚ × ℚ × ℚ) : Player × Terrain :=
  let p1 := if 0 < p.flight_timer then
              { p with flight_timer := p.flight_timer - dt } else p
  let p2 := { p1 with yaw := p1.yaw + mouse.1 * MOUSE_SENSITIVITY,
                      pitch := max (-89) (min 89 (p1.pitch - mouse.2 * MOUSE_SENSITIVITY)) }
  let p3 := if keys.tab && keys.lctrl then toggle_free_flight p2
            else if keys.tab && keys.space then toggle_max_lift p2
            else if keys.tab then toggle_flight_mode p2
            else p2
  let p4 := if keys.f1 then reset_flight p3 else p3
  let p5 := if keys.lalt then increase_lift p4 else p4
  let p6 := if keys.lctrl && ! keys.tab then set_hover_lift p5 else p5
  let r : Player × Terrain :=
    if p6.mode = NORMAL_MODE then update_normal_movement pn SEED p6 t dt keys md
    else if p6.mode = FLIGHT_MODE then update_flight_movement pn SEED p6 t dt keys md
    else if p6.mode = FREE_FLIGHT_MODE then update_free_flight_movement p6 t dt md3
    else (p6, t)
  ({ r.1 with current_terrain_type := get_terrain_type pn SEED r.2 r.1.pos0 r.1.pos2 },
   r.2)

end PlayerTick

/- Concrete noise instantiations and states used by the scenario theorems. -/

/-- Constantly flat noise: every sample is 0, so the terrain height is 0
everywhere. -/
def pnFlat : Pnoise := fun _ _ _ _ _ => 0

/-- Noise returning its first argument; heights then grow linearly with the
lattice x index. -/
def pnLin : Pnoise := fun a _ _ _ _ => a

/-- Step noise producing height 0 on lattice cells with x index at most 0 and
height `STEP_HEIGHT = 0.5` from x index 1 on (at seed 0, block size 1). -/
def pnStepA : Pnoise := fun a _ _ _ _ => if 1 / 20 ≤ a then 1 / 50 else 0

/-- Step noise as `pnStepA` but with the upper height 0.6, just above
`STEP_HEIGHT`. -/
def pnStepB : Pnoise := fun a _ _ _ _ => if 1 / 20 ≤ a then 3 / 125 else 0

/-- Step noise as `pnStepA` but with the upper height 0.25, inside the
step-up window. -/
def pnStepC : Pnoise := fun a _ _ _ _ => if 1 / 20 ≤ a then 1 / 100 else 0

/-- A concrete grounded player standing at the origin on flat ground. -/
def basePlayer : Player :=
  { pos0 := 0, pos1 := 9 / 5, pos2 := 0, vel0 := 0, vel1 := 0, vel2 := 0,
    yaw := 0, pitch := 0, on_ground := true, last_collision := .noneYet,
    current_terrain_type := PLAINS, mode := NORMAL_MODE, lift_force := BASE_LIFT,
    crouching := false, crouch_height := PLAYER_HEIGHT * (65 / 100),
    normal_height := PLAYER_HEIGHT, free_flight := false, flight_timer := 0,
    flight_cooldown := 1 / 2, max_lift_active := false }

/-- Keys with only TAB pressed. -/
def keysTab : Keys := { noKeys with tab := true }

/-- Modelled from the spec: the walk-over rule of the collision policy as
the specification states it in §4.2 item 1 — "target height ≤ current
height (downhill or flat) → always allowed ... OR target height > current
height and slope at the target ≤ max-climb-angle → allowed" — given the
current height, the target height and the squared slope difference at the
target (the 45° comparison expressed by the equivalent rational bound,
see `slope_angle_le_45_iff`).  Unlike the source's `can_walk_over`, it has
no `abs(height_diff) <= STEP_HEIGHT` disjunct. -/
def spec_walk_over (hcur htgt sq : ℚ) : Bool :=
  decide (htgt ≤ hcur) || decide (sq ≤ 1 / 2500)

/-- The height difference `target_height - current_height` exactly as
`can_walk_over` and `can_step_up` compute it from a starting terrain state:
current height queried first, target height queried on the resulting
state. -/
def height_diff_at (pn : Pnoise) (SEED : ℤ) (p : Player) (t : Terrain)
    (dx dz : ℚ) : ℚ :=
  (get_height pn SEED (get_height pn SEED t p.pos0 p.pos2).2
      (p.pos0 + dx) (p.pos2 + dz)).1 -
    (get_height pn SEED t p.pos0 p.pos2).1

/-- The squared slope difference at the displacement target, evaluated on
the terrain state left by the two height queries of `height_diff_at`,
which is the state in which `can_walk_over` evaluates its slope test. -/
def target_slope_sq (pn : Pnoise) (SEED : ℤ) (p : Player) (t : Terrain)
    (dx dz : ℚ) : ℚ :=
  (slope_sq pn SEED
      (get_height pn SEED (get_height pn SEED t p.pos0 p.pos2).2
          (p.pos0 + dx) (p.pos2 + dz)).2
      (p.pos0 + dx) (p.pos2 + dz)).1

/-- The seven classification thresholds 0, 0.15, 0.3, 0.45, 0.6, 0.75, 0.9
of `Terrain.get_terrain_type`, with 1 closing the last band. -/
def thr : ℕ → ℚ
  | 0 => 0
  | 1 => 15 / 100
  | 2 => 3 / 10
  | 3 => 45 / 100
  | 4 => 6 / 10
  | 5 => 75 / 100
  | 6 => 9 / 10
  | _ => 1

/-- The ascending labels of the seven classification bands. -/
def bandLabel : ℕ → ℕ
  | 0 => BASIN
  | 1 => PLAINS
  | 2 => HILLS
  | 3 => VALLEY
  | 4 => PLATEAU
  | 5 => MOUNTAINS
  | _ => CANYON

/-- The index of the threshold band selected by the comparison chain of
`Terrain.get_terrain_type` for a given normalized score. -/
def bandIndexOf (s : ℚ) : ℕ :=
  if s < 15 / 100 then 0
  else if s < 3 / 10 then 1
  else if s < 45 / 100 then 2
  else if s < 6 / 10 then 3
  else if s < 75 / 100 then 4
  else if s < 9 / 10 then 5
  else 6

/-- Membership of a score in band `i`: the half-open interval
`[thr i, thr (i+1))` for the first six bands and the closed interval
`[0.9, 1]` for the last. -/
def inBand (i : ℕ) (s : ℚ) : Prop :=
  if i = 6 then 9 / 10 ≤ s ∧ s ≤ 1 else thr i ≤ s ∧ s < thr (i + 1)

/- Scenario states for the concrete settling / cooldown computations. -/

/-- Spawn over flat terrain at height 0 (smooth mode, block size 1). -/
def c2_spawn : Player × Terrain := mkPlayer pnFlat 0 (terrain0 1 true)

/-- One Grounded tick of the flat-terrain spawn, dt = 0.016, no input. -/
def c2_tick1 : Player × Terrain :=
  update_normal_movement pnFlat 0 c2_spawn.1 c2_spawn.2 (2 / 125) noKeys (0, 0)

/-- A second identical Grounded tick. -/
def c2_tick2 : Player × Terrain :=
  update_normal_movement pnFlat 0 c2_tick1.1 c2_tick1.2 (2 / 125) noKeys (0, 0)

/-- First full tick of the cooldown scenario: TAB held, dt = 0.016. -/
def c3_tick1 : Player × Terrain :=
  update_movement pnFlat 0 c2_spawn.1 c2_spawn.2 (2 / 125) keysTab (0, 0) (0, 0)
    (0, 0, 0)

/-- Second full tick of the cooldown scenario, 0.016 s after the first. -/
def c3_tick2 : Player × Terrain :=
  update_movement pnFlat 0 c3_tick1.1 c3_tick1.2 (2 / 125) keysTab (0, 0) (0, 0)
    (0, 0, 0)

/-- A smooth-mode height query at (0, 0.5) over the linear noise, caching
its result under the rounded key (0, 0.5). -/
def c5_q1 : ℚ × Terrain := get_height pnLin 0 (terrain0 1 true) 0 (1 / 2)

/-- The terrain state after toggling smoothing off on the cached state. -/
def c5_toggled : Terrain := toggle_smooth_terrain c5_q1.2

/- Cache-coherence lemmas for `get_height`: a value stored under a rounded
key persists through later queries, a present key is answered from the
cache without touching the state, and every query leaves its own result
in the cache. -/

theorem alookup_cons_self {α β : Type} [DecidableEq α] (k : α) (v : β)
    (l : List (α × β)) : alookup ((k, v) :: l) k = some v := by
  simp [alookup]

theorem vertexAt_erosion (pn : Pnoise) (SEED : ℤ) (t : Terrain) (px pz : ℤ) :
    (vertexAt pn SEED t px pz).2.erosion_cache = t.erosion_cache := by
  unfold vertexAt
  split <;> rfl

theorem get_height_hit (pn : Pnoise) (SEED : ℤ) (t : Terrain) (x z : ℚ) (v : ℚ)
    (h : alookup t.erosion_cache (round2 x, round2 z) = some v) :
    get_height pn SEED t x z = (v, t) := by
  unfold get_height
  simp only [h]

theorem get_height_mem (pn : Pnoise) (SEED : ℤ) (t : Terrain) (x z : ℚ) :
    alookup (get_height pn SEED t x z).2.erosion_cache (round2 x, round2 z)
      = some (get_height pn SEED t x z).1 := by
  rcases hl : alookup t.erosion_cache (round2 x, round2 z) with _ | w
  · by_cases hs : t.smooth
    · simp [get_height, hl, hs, alookup]
    · simp [get_height, hl, hs, alookup]
  · simp [get_height, hl]

theorem get_height_preserve (pn : Pnoise) (SEED : ℤ) (t : Terrain) (x z : ℚ)
    (k : ℚ × ℚ) (v : ℚ) (h : alookup t.erosion_cache k = some v) :
    alookup (get_height pn SEED t x z).2.erosion_cache k = some v := by
  rcases hl : alookup t.erosion_cache (round2 x, round2 z) with _ | w
  · have hne : (round2 x, round2 z) ≠ k := by
      intro he
      rw [he, h] at hl
      exact Option.noConfusion hl
    by_cases hs : t.smooth
    · simp [get_height, hl, hs, alookup, hne, vertexAt_erosion, h]
    · simp [get_height, hl, hs, alookup, hne, h]
  · simp [get_height, hl, h]

theorem slope_sq_preserve (pn : Pnoise) (SEED : ℤ) (t : Terrain) (x z : ℚ)
    (k : ℚ × ℚ) (v : ℚ) (h : alookup t.erosion_cache k = some v) :
    alookup (slope_sq pn SEED t x z).2.erosion_cache k = some v := by
  unfold slope_sq
  exact get_height_preserve _ _ _ _ _ _ _
    (get_height_preserve _ _ _ _ _ _ _
      (get_height_preserve _ _ _ _ _ _ _
        (get_height_preserve _ _ _ _ _ _ _ h)))

/-- C7: for a fixed seed and configuration, calling the height sample
function twice with identical arguments returns identical values
(bit-for-bit: the second call answers from the memoization cache with the
first call's result); in particular, with seed 42 in discrete (non-smooth)
mode, `sample(3, 3)` called twice yields the same value both times. -/
theorem C7_sample_deterministic :
    (∀ (pn : Pnoise) (SEED : ℤ) (t : Terrain) (x z : ℚ),
        (get_height pn SEED (get_height pn SEED t x z).2 x z).1
          = (get_height pn SEED t x z).1)
    ∧ ∀ pn : Pnoise,
        (get_height pn 42
            (get_height pn 42 (terrain0 TERRAIN_BLOCK_SIZE false) 3 3).2 3 3).1
          = (get_height pn 42 (terrain0 TERRAIN_BLOCK_SIZE false) 3 3).1 := by
  constructor
  · intro pn SEED t x z
    exact congrArg Prod.fst
      (get_height_hit pn SEED _ x z _ (get_height_mem pn SEED t x z))
  · intro pn
    exact congrArg Prod.fst
      (get_height_hit pn 42 _ 3 3 _ (get_height_mem pn 42 _ 3 3))

/-- C10: `get_height` memoizes under the query coordinates rounded to two
decimals, so any second query whose coordinates round to the same key
returns the value cached for the first query; concretely, over the linear
noise (seed 0, smooth mode) the non-corner query (3, 0.004) yields
751/200 and caches it under the key (3, 0), so the subsequent query at the
exact lattice corner (3, 0) also returns 751/200 even though a fresh query
at that corner yields the corner value 15/4. -/
theorem C10_cache_key_collision :
    (∀ (pn : Pnoise) (SEED : ℤ) (t : Terrain) (x1 z1 x2 z2 : ℚ),
        (x1, z1) ≠ (x2, z2) →
        (round2 x2, round2 z2) = (round2 x1, round2 z1) →
        (get_height pn SEED (get_height pn SEED t x1 z1).2 x2 z2).1
          = (get_height pn SEED t x1 z1).1)
    ∧ ((get_height pnLin 0 (terrain0 1 true) 3 (1 / 250)).1 = 751 / 200
       ∧ (get_height pnLin 0
            (get_height pnLin 0 (terrain0 1 true) 3 (1 / 250)).2 3 0).1 = 751 / 200
       ∧ (get_height pnLin 0 (terrain0 1 true) 3 0).1 = 15 / 4) := by
  constructor
  · intro pn SEED t x1 z1 x2 z2 _ hkey
    have hm := get_height_mem pn SEED t x1 z1
    rw [← hkey] at hm
    exact congrArg Prod.fst (get_height_hit pn SEED _ x2 z2 _ hm)
  · refine ⟨?_, ?_, ?_⟩ <;>
      norm_num [get_height, vertexAt, terrain0, round2, roundHalfEven, qfloor,
        pyInt, alookup, pnLin, TERRAIN_SCALE, HEIGHT_SCALE, Prod.ext_iff]

/-- Witness for C10: the queries (0, 0.004) and (0, 0) are distinct but
share the rounded key (0, 0), and the corner query returns the cached
value of the non-corner query. -/
theorem C10_cache_key_collision_witness :
    (get_height pnLin 0 (get_height pnLin 0 (terrain0 1 true) 0 (1 / 250)).2 0 0).1
      = (get_height pnLin 0 (terrain0 1 true) 0 (1 / 250)).1 :=
  C10_cache_key_collision.1 pnLin 0 (terrain0 1 true) 0 (1 / 250) 0 0
    (by norm_num [Prod.ext_iff])
    (by norm_num [round2, roundHalfEven, qfloor, Prod.ext_iff])

/-- C5 counterexample: toggling smoothing does not clear the rounded-key
height cache.  A smooth-mode height cached at (0, 0.5) (value 5/8) is
still returned after the toggle, although a fresh non-smooth query at the
same point yields 0 — so post-toggle heights are not a pure function of
(coordinate, seed, new parameters), and the memoization cache is not
cleared in its entirety. -/
theorem C5_counterexample :
    c5_toggled.smooth = false ∧
    c5_toggled.erosion_cache ≠ [] ∧
    (get_height pnLin 0 c5_toggled 0 (1 / 2)).1 = 5 / 8 ∧
    (get_height pnLin 0 (terrain0 1 false) 0 (1 / 2)).1 = 0 := by
  refine ⟨?_, ?_, ?_, ?_⟩ <;>
    norm_num [c5_toggled, c5_q1, toggle_smooth_terrain, get_height, vertexAt,
      terrain0, round2, roundHalfEven, qfloor, pyInt, alookup, pnLin,
      TERRAIN_SCALE, HEIGHT_SCALE, Prod.ext_iff]

/-- C5 amended: the smoothing toggle clears the lattice vertex cache
entirely and flips the flag, but leaves the rounded-key height cache
untouched, so any height cached before the epoch boundary is returned
unchanged after it. -/
theorem C5_amended_epoch (pn : Pnoise) (SEED : ℤ) (t : Terrain) (x z v : ℚ)
    (h : alookup t.erosion_cache (round2 x, round2 z) = some v) :
    (toggle_smooth_terrain t).vertices = [] ∧
    (toggle_smooth_terrain t).smooth = ! t.smooth ∧
    (toggle_smooth_terrain t).erosion_cache = t.erosion_cache ∧
    (get_height pn SEED (toggle_smooth_terrain t) x z).1 = v := by
  refine ⟨rfl, rfl, rfl, ?_⟩
  exact congrArg Prod.fst (get_height_hit pn SEED (toggle_smooth_terrain t) x z v h)

/-- Witness for C5 amended, at the concrete cached state of the
counterexample scenario. -/
theorem C5_amended_epoch_witness :
    (toggle_smooth_terrain c5_q1.2).vertices = [] ∧
    (toggle_smooth_terrain c5_q1.2).smooth = ! c5_q1.2.smooth ∧
    (toggle_smooth_terrain c5_q1.2).erosion_cache = c5_q1.2.erosion_cache ∧
    (get_height pnLin 0 (toggle_smooth_terrain c5_q1.2) 0 (1 / 2)).1 = 5 / 8 :=
  C5_amended_epoch pnLin 0 c5_q1.2 0 (1 / 2) (5 / 8)
    (by norm_num [c5_q1, get_height, vertexAt, terrain0, round2, roundHalfEven,
      qfloor, pyInt, alookup, pnLin, TERRAIN_SCALE, HEIGHT_SCALE, Prod.ext_iff])

/-- Justification of the squared-slope encoding used throughout the
embedding: the source's `get_slope_angle` returns
`degrees(atan2(sqrt s, 0.02))` where `s` is the squared central
difference (and `atan2 y x = arctan (y / x)` for positive `x`), and this
angle is at most the 45° climb bound iff `s ≤ 1/2500`. -/
theorem slope_angle_le_45_iff (s : ℝ) :
    Real.arctan (Real.sqrt s / (2 / 100)) * (180 / Real.pi) ≤ 45 ↔
      s ≤ 1 / 2500 := by
  have hpi : (0 : ℝ) < Real.pi := Real.pi_pos
  have hsq : Real.sqrt (1 / 2500) = 1 / 50 := by
    rw [show (1 / 2500 : ℝ) = (1 / 50) ^ 2 by norm_num, Real.sqrt_sq (by norm_num)]
  have h1 : Real.arctan (Real.sqrt s / (2 / 100)) * (180 / Real.pi) ≤ 45 ↔
      Real.arctan (Real.sqrt s / (2 / 100)) ≤ Real.pi / 4 := by
    rw [show (45 : ℝ) = Real.pi / 4 * (180 / Real.pi) by field_simp; ring]
    exact mul_le_mul_right (by positivity)
  rw [h1, ← Real.arctan_one, Real.arctan_strictMono.le_iff_le,
    div_le_one (by norm_num), show (2 / 100 : ℝ) = 1 / 50 by norm_num, ← hsq,
    Real.sqrt_le_sqrt_iff (by norm_num : (0 : ℝ) ≤ 1 / 2500)]

theorem bandIndexOf_lt (s : ℚ) : bandIndexOf s < 7 := by
  unfold bandIndexOf
  split_ifs <;> norm_num

theorem band_mem (s : ℚ) (h0 : 0 ≤ s) (h1 : s ≤ 1) :
    inBand (bandIndexOf s) s := by
  unfold bandIndexOf
  split_ifs <;> simp [inBand, thr] <;> constructor <;> linarith

theorem band_unique (s : ℚ) (j : ℕ) (hj : j < 7) (hb : inBand j s) :
    j = bandIndexOf s := by
  interval_cases j <;>
    · simp only [inBand, thr] at hb
      norm_num at hb
      unfold bandIndexOf
      rcases hb with ⟨hb1, hb2⟩
      split_ifs <;> first | rfl | (exfalso; linarith)

/-- Evaluation of `toggle_crouch` when the height at the player's position
is already cached: the crouch state is recorded and the vertical position
is rewritten to the cached height plus the stance height of the new
state, leaving the terrain untouched. -/
theorem toggle_crouch_eval (pn : Pnoise) (SEED : ℤ) (p : Player) (t : Terrain)
    (st : Bool) (v : ℚ)
    (h : alookup t.erosion_cache (round2 p.pos0, round2 p.pos2) = some v) :
    toggle_crouch pn SEED p t st =
      ({ p with crouching := st,
                pos1 := v + if st then p.crouch_height else p.normal_height }, t) := by
  unfold toggle_crouch
  cases st <;>
    simp [get_height_hit pn SEED t p.pos0 p.pos2 v h]

/-- Characterization of the vertical-resolution tail: the crouch rewrite
fixes the vertical position at terrain height plus stance height, the
strict ground-clamp comparison then fails, and neither the clamp nor the
jump branch can change the vertical position. -/
theorem resolve_spec (pn : Pnoise) (SEED : ℤ) (p3 : Player) (t1 : Terrain)
    (keys : Keys) :
    (grounded_vertical_resolve pn SEED p3 t1 keys).1.pos1 =
        (get_height pn SEED t1 p3.pos0 p3.pos2).1 +
          (if keys.lshift then p3.crouch_height else p3.normal_height) ∧
    (grounded_vertical_resolve pn SEED p3 t1 keys).1.pos0 = p3.pos0 ∧
    (grounded_vertical_resolve pn SEED p3 t1 keys).1.pos2 = p3.pos2 ∧
    (grounded_vertical_resolve pn SEED p3 t1 keys).1.crouching = keys.lshift ∧
    (grounded_vertical_resolve pn SEED p3 t1 keys).1.crouch_height
      = p3.crouch_height ∧
    (grounded_vertical_resolve pn SEED p3 t1 keys).1.normal_height
      = p3.normal_height ∧
    (grounded_vertical_resolve pn SEED p3 t1 keys).2 =
      (get_height pn SEED t1 p3.pos0 p3.pos2).2 := by
  unfold grounded_vertical_resolve
  dsimp only
  rw [toggle_crouch_eval pn SEED p3 (get_height pn SEED t1 p3.pos0 p3.pos2).2
      keys.lshift (get_height pn SEED t1 p3.pos0 p3.pos2).1
      (get_height_mem pn SEED t1 p3.pos0 p3.pos2)]
  cases hl : keys.lshift <;> cases hs : keys.space <;>
    cases hg : p3.on_ground <;> simp [lt_irrefl]

/-- The tail invariant restated against the state the tail itself
returns: the vertical position equals the height the terrain reports at
the final horizontal position plus the current stance height. -/
theorem resolve_final (pn : Pnoise) (SEED : ℤ) (p3 : Player) (t1 : Terrain)
    (keys : Keys) :
    (grounded_vertical_resolve pn SEED p3 t1 keys).1.pos1 =
      (get_height pn SEED (grounded_vertical_resolve pn SEED p3 t1 keys).2
          (grounded_vertical_resolve pn SEED p3 t1 keys).1.pos0
          (grounded_vertical_resolve pn SEED p3 t1 keys).1.pos2).1 +
        (if (grounded_vertical_resolve pn SEED p3 t1 keys).1.crouching then
            (grounded_vertical_resolve pn SEED p3 t1 keys).1.crouch_height
          else (grounded_vertical_resolve pn SEED p3 t1 keys).1.normal_height) := by
  obtain ⟨h1, h2, h3, h4, h5, h6, h7⟩ := resolve_spec pn SEED p3 t1 keys
  rw [h1, h2, h3, h4, h5, h6, h7,
    congrArg Prod.fst
      (get_height_hit pn SEED _ _ _ _ (get_height_mem pn SEED t1 p3.pos0 p3.pos2))]

/-- C9: after any Grounded-mode tick, the vertical position equals exactly
the terrain height reported at the player's final horizontal location plus
the current stance height, for every starting state, input, dt and
movement intent — in particular regardless of any jump impulse or
accumulated vertical velocity, so the position never rises above ground
level on Grounded ticks. -/
theorem C9_grounded_height_invariant (pn : Pnoise) (SEED : ℤ) (p : Player)
    (t : Terrain) (dt : ℚ) (keys : Keys) (md : ℚ × ℚ) :
    (update_normal_movement pn SEED p t dt keys md).1.pos1 =
      (get_height pn SEED (update_normal_movement pn SEED p t dt keys md).2
          (update_normal_movement pn SEED p t dt keys md).1.pos0
          (update_normal_movement pn SEED p t dt keys md).1.pos2).1 +
        (if (update_normal_movement pn SEED p t dt keys md).1.crouching then
            (update_normal_movement pn SEED p t dt keys md).1.crouch_height
          else (update_normal_movement pn SEED p t dt keys md).1.normal_height) := by
  unfold update_normal_movement
  exact resolve_final pn SEED _ _ keys

/-- C2 at the failing input (flat terrain at height 0, spawn stance 1.8,
dt = 0.016, zero input): after one tick the vertical velocity is
−0.1568 ≈ −0.157 as the claim computes, the position returns to 1.8 and
the player stays grounded, but the velocity is NOT reset to 0 — the crouch
resolution has already snapped the position to exactly terrain + stance,
so the strict ground-clamp comparison fails; after a second tick the
velocity is −0.3136, so it never converges to 0. -/
theorem C2_failing_behavior :
    c2_spawn.1.pos1 = 9 / 5 ∧
    c2_tick1.1.vel1 = -(98 / 625) ∧
    c2_tick1.1.pos1 = 9 / 5 ∧
    c2_tick1.1.on_ground = true ∧
    c2_tick1.1.vel1 ≠ 0 ∧
    c2_tick2.1.vel1 = -(196 / 625) ∧
    c2_tick2.1.pos1 = 9 / 5 := by
  refine ⟨?_, ?_, ?_, ?_, ?_, ?_, ?_⟩ <;>
    norm_num [c2_tick2, c2_tick1, c2_spawn, update_normal_movement,
      grounded_vertical_resolve, mkPlayer, toggle_crouch, get_height, vertexAt,
      terrain0, round2, roundHalfEven, qfloor, pyInt, alookup, pnFlat, noKeys,
      TERRAIN_SCALE, HEIGHT_SCALE, GRAVITY, PLAYER_HEIGHT, JUMP_FORCE,
      Prod.ext_iff]

/-- C1 counterexample: from the reachable spawn state (mode Grounded,
cooldown expired) a single free-flight-toggle command moves the mode
directly from Grounded to FreeFlight, with no intermediate Flight state —
so a direct `Grounded → FreeFlight` edge exists. -/
theorem C1_counterexample :
    (mkPlayer pnFlat 0 (terrain0 1 true)).1.mode = NORMAL_MODE ∧
    (toggle_free_flight (mkPlayer pnFlat 0 (terrain0 1 true)).1).mode
      = FREE_FLIGHT_MODE := by
  constructor <;>
    norm_num [mkPlayer, toggle_free_flight, get_height, vertexAt, terrain0,
      round2, roundHalfEven, qfloor, pyInt, alookup, pnFlat, TERRAIN_SCALE,
      HEIGHT_SCALE, PLAYER_HEIGHT, NORMAL_MODE, FLIGHT_MODE, FREE_FLIGHT_MODE,
      Prod.ext_iff]

/-- C1 amended: with the cooldown expired, the flight toggle maps
Grounded → Flight, Flight → Grounded and FreeFlight → Grounded, and the
free-flight toggle maps FreeFlight → Flight and everything else
(Grounded included) → FreeFlight.  Both direct edges between Grounded and
FreeFlight therefore exist; only `Grounded ↔ Flight` and
`Flight ↔ FreeFlight` are also present as the spec describes. -/
theorem C1_amended_transitions (p : Player) (h : ¬ 0 < p.flight_timer) :
    ((toggle_flight_mode p).mode =
        if p.mode = NORMAL_MODE then FLIGHT_MODE
        else if p.mode = FLIGHT_MODE then NORMAL_MODE
        else if p.mode = FREE_FLIGHT_MODE then NORMAL_MODE
        else p.mode)
    ∧ ((toggle_free_flight p).mode =
        if p.mode = FREE_FLIGHT_MODE then FLIGHT_MODE else FREE_FLIGHT_MODE) := by
  unfold toggle_flight_mode toggle_free_flight
  constructor <;> split_ifs <;> simp_all

/-- Witness for C1 amended at the concrete grounded player. -/
theorem C1_amended_transitions_witness :
    (toggle_flight_mode basePlayer).mode = FLIGHT_MODE ∧
    (toggle_free_flight basePlayer).mode = FREE_FLIGHT_MODE := by
  have h := C1_amended_transitions basePlayer (by norm_num [basePlayer])
  simpa [basePlayer, NORMAL_MODE, FLIGHT_MODE, FREE_FLIGHT_MODE] using h

/-- C3: while the cooldown timer is positive both mode toggles leave the
whole player state unchanged; every toggle call that changes the mode
resets the timer to the fixed cooldown; and in the concrete scenario
(cooldown 0.5 s, two TAB ticks 0.016 s apart over flat terrain) only the
first call changes the mode, which is Flight after both ticks. -/
theorem C3_cooldown_gating :
    (∀ p : Player, 0 < p.flight_timer →
        toggle_flight_mode p = p ∧ toggle_free_flight p = p)
    ∧ (∀ p : Player, (toggle_flight_mode p).mode ≠ p.mode →
        (toggle_flight_mode p).flight_timer = p.flight_cooldown)
    ∧ (∀ p : Player, (toggle_free_flight p).mode ≠ p.mode →
        (toggle_free_flight p).flight_timer = p.flight_cooldown)
    ∧ (c2_spawn.1.mode = NORMAL_MODE ∧ c2_spawn.1.flight_cooldown = 1 / 2 ∧
       c3_tick1.1.mode = FLIGHT_MODE ∧ c3_tick2.1.mode = FLIGHT_MODE) := by
  refine ⟨?_, ?_, ?_, ?_⟩
  · intro p hp
    constructor
    · simp [toggle_flight_mode, hp]
    · simp [toggle_free_flight, hp]
  · intro p hp
    unfold toggle_flight_mode at hp ⊢
    split_ifs at hp ⊢ <;> simp_all
  · intro p hp
    unfold toggle_free_flight at hp ⊢
    split_ifs at hp ⊢ <;> simp_all
  · refine ⟨?_, ?_, ?_, ?_⟩ <;>
      norm_num [c3_tick2, c3_tick1, c2_spawn, update_movement, mkPlayer,
        toggle_flight_mode, toggle_free_flight, toggle_max_lift, reset_flight,
        increase_lift, set_hover_lift, update_normal_movement,
        update_flight_movement, update_free_flight_movement, toggle_crouch,
        get_height, vertexAt, get_terrain_type, normalized_score, terrain_score,
        terrain0, round2, roundHalfEven, qfloor, pyInt, alookup, pnFlat, noKeys,
        keysTab, TERRAIN_SCALE, HEIGHT_SCALE, PLAYER_HEIGHT, GRAVITY, JUMP_FORCE,
        BASE_LIFT, MAX_LIFT, MOUSE_SENSITIVITY, FLIGHT_CONTROL_SENSITIVITY,
        FLIGHT_SPEED_MULTIPLIER, PLAYER_SPEED, NORMAL_MODE, FLIGHT_MODE,
        FREE_FLIGHT_MODE, BASIN, PLAINS, HILLS, VALLEY, PLATEAU, MOUNTAINS,
        CANYON, Prod.ext_iff]

/-- Witness for C3 at concrete states: a player mid-cooldown is unchanged
by both toggles, and an accepted toggle from the grounded player resets
the timer to its cooldown. -/
theorem C3_cooldown_gating_witness :
    (toggle_flight_mode { basePlayer with flight_timer := 1 / 4 }
        = { basePlayer with flight_timer := 1 / 4 } ∧
     toggle_free_flight { basePlayer with flight_timer := 1 / 4 }
        = { basePlayer with flight_timer := 1 / 4 }) ∧
    (toggle_flight_mode basePlayer).flight_timer = basePlayer.flight_cooldown ∧
    (toggle_free_flight basePlayer).flight_timer = basePlayer.flight_cooldown :=
  ⟨C3_cooldown_gating.1 _ (by norm_num [basePlayer]),
   C3_cooldown_gating.2.1 basePlayer
     (by norm_num [basePlayer, toggle_flight_mode, NORMAL_MODE, FLIGHT_MODE]),
   C3_cooldown_gating.2.2.1 basePlayer
     (by norm_num [basePlayer, toggle_free_flight, NORMAL_MODE,
       FREE_FLIGHT_MODE])⟩

/-- C8 counterexample: starting from liftForce 7 (inside `[0, MAX_LIFT]`)
with the flag inactive, two successive max-lift toggles leave liftForce at
`BASE_LIFT = 5`, not at the prior value 7 — the double toggle does not
restore every starting value. -/
theorem C8_counterexample :
    (0 : ℚ) ≤ 7 ∧ (7 : ℚ) ≤ MAX_LIFT ∧
    ({ basePlayer with lift_force := 7 } : Player).lift_force = 7 ∧
    ({ basePlayer with lift_force := 7 } : Player).max_lift_active = false ∧
    (toggle_max_lift (toggle_max_lift
        { basePlayer with lift_force := 7 })).lift_force = 5 ∧
    (5 : ℚ) ≠ 7 := by
  refine ⟨by norm_num, ?_, rfl, rfl, ?_, by norm_num⟩ <;>
    norm_num [toggle_max_lift, basePlayer, MAX_LIFT, BASE_LIFT]

/-- C8 amended: the max-lift toggle sets liftForce to `MAX_LIFT` when the
flag is inactive and to `BASE_LIFT` when it is active, flipping the flag;
a double toggle restores the flag and sets liftForce to the canonical
value for the starting flag (`BASE_LIFT` if it was inactive, `MAX_LIFT` if
active), so it restores the prior liftForce exactly when that force
already equals the canonical value — not for every value in
`[0, MAX_LIFT]`. -/
theorem C8_amended_toggle (p : Player) :
    ((toggle_max_lift p).lift_force =
        if p.max_lift_active then BASE_LIFT else MAX_LIFT)
    ∧ (toggle_max_lift p).max_lift_active = ! p.max_lift_active
    ∧ (toggle_max_lift (toggle_max_lift p)).max_lift_active = p.max_lift_active
    ∧ ((toggle_max_lift (toggle_max_lift p)).lift_force =
        if p.max_lift_active then MAX_LIFT else BASE_LIFT)
    ∧ ((toggle_max_lift (toggle_max_lift p)).lift_force = p.lift_force ↔
        p.lift_force = if p.max_lift_active then MAX_LIFT else BASE_LIFT) := by
  cases h : p.max_lift_active <;> simp [toggle_max_lift, h, eq_comm]

/- Collision-policy lemmas for the C4 analysis. -/

theorem can_walk_over_true_of_step (pn : Pnoise) (SEED : ℤ) (p : Player)
    (t : Terrain) (dx dz : ℚ)
    (h0 : 0 < height_diff_at pn SEED p t dx dz)
    (h1 : height_diff_at pn SEED p t dx dz ≤ STEP_HEIGHT) :
    (can_walk_over pn SEED p t dx dz).1 = true := by
  unfold can_walk_over
  unfold height_diff_at at h0 h1
  dsimp only
  rw [if_neg (not_lt.mpr h0.le)]
  simp only [Bool.or_eq_true, decide_eq_true_eq]
  exact Or.inr (by rw [abs_of_pos h0]; exact h1)

theorem can_walk_over_false_of_blocked (pn : Pnoise) (SEED : ℤ) (p : Player)
    (t : Terrain) (dx dz : ℚ)
    (h1 : STEP_HEIGHT < height_diff_at pn SEED p t dx dz)
    (h2 : 1 / 2500 < target_slope_sq pn SEED p t dx dz) :
    (can_walk_over pn SEED p t dx dz).1 = false := by
  have h0 : 0 < height_diff_at pn SEED p t dx dz := by
    have : (0 : ℚ) < STEP_HEIGHT := by norm_num [STEP_HEIGHT]
    linarith
  unfold can_walk_over
  unfold height_diff_at at h0 h1
  unfold target_slope_sq at h2
  dsimp only
  rw [if_neg (not_lt.mpr h0.le)]
  simp only [Bool.or_eq_false_iff, decide_eq_false_iff_not]
  exact ⟨not_le.mpr h2, fun hq => absurd h1 (not_lt.mpr ((abs_of_pos h0) ▸ hq))⟩

theorem can_walk_over_state (pn : Pnoise) (SEED : ℤ) (p : Player) (t : Terrain)
    (dx dz : ℚ) (h : ¬ height_diff_at pn SEED p t dx dz < 0) :
    (can_walk_over pn SEED p t dx dz).2 =
      (slope_sq pn SEED
          (get_height pn SEED (get_height pn SEED t p.pos0 p.pos2).2
              (p.pos0 + dx) (p.pos2 + dz)).2 (p.pos0 + dx) (p.pos2 + dz)).2 := by
  unfold can_walk_over
  unfold height_diff_at at h
  dsimp only
  rw [if_neg h]

theorem can_step_up_cached (pn : Pnoise) (SEED : ℤ) (p : Player) (S : Terrain)
    (dx dz : ℚ) (v1 v2 : ℚ)
    (k1 : alookup S.erosion_cache (round2 p.pos0, round2 p.pos2) = some v1)
    (k2 : alookup S.erosion_cache
        (round2 (p.pos0 + dx), round2 (p.pos2 + dz)) = some v2) :
    can_step_up pn SEED p S dx dz =
      ((if |dx| < 1 / 1000 ∧ |dz| < 1 / 1000 then false
        else decide (0 < v2 - v1 ∧ v2 - v1 ≤ STEP_HEIGHT)), S) := by
  unfold can_step_up
  split_ifs with he
  · rfl
  · dsimp only
    rw [get_height_hit pn SEED S p.pos0 p.pos2 v1 k1]
    dsimp only
    rw [get_height_hit pn SEED S (p.pos0 + dx) (p.pos2 + dz) v2 k2]

theorem can_jump_over_cached (pn : Pnoise) (SEED : ℤ) (p : Player) (S : Terrain)
    (dx dz : ℚ) (v1 v2 : ℚ)
    (k1 : alookup S.erosion_cache (round2 p.pos0, round2 p.pos2) = some v1)
    (k2 : alookup S.erosion_cache
        (round2 (p.pos0 + dx), round2 (p.pos2 + dz)) = some v2) :
    can_jump_over pn SEED p S dx dz =
      (decide (|v2 - v1| < MAX_JUMP_HEIGHT), S) := by
  unfold can_jump_over
  dsimp only
  rw [get_height_hit pn SEED S p.pos0 p.pos2 v1 k1]
  dsimp only
  rw [get_height_hit pn SEED S (p.pos0 + dx) (p.pos2 + dz) v2 k2]

theorem walk_state_keys (pn : Pnoise) (SEED : ℤ) (p : Player) (t : Terrain)
    (dx dz : ℚ) (h : ¬ height_diff_at pn SEED p t dx dz < 0) :
    alookup (can_walk_over pn SEED p t dx dz).2.erosion_cache
        (round2 p.pos0, round2 p.pos2)
      = some (get_height pn SEED t p.pos0 p.pos2).1 ∧
    alookup (can_walk_over pn SEED p t dx dz).2.erosion_cache
        (round2 (p.pos0 + dx), round2 (p.pos2 + dz))
      = some (get_height pn SEED (get_height pn SEED t p.pos0 p.pos2).2
          (p.pos0 + dx) (p.pos2 + dz)).1 := by
  rw [can_walk_over_state pn SEED p t dx dz h]
  constructor
  · exact slope_sq_preserve _ _ _ _ _ _ _
      (get_height_preserve _ _ _ _ _ _ _ (get_height_mem _ _ _ _ _))
  · exact slope_sq_preserve _ _ _ _ _ _ _ (get_height_mem _ _ _ _ _)

theorem check_movement_walkover (pn : Pnoise) (SEED : ℤ) (p : Player)
    (t : Terrain) (dx dz : ℚ)
    (hw : (can_walk_over pn SEED p t dx dz).1 = true) :
    (check_movement pn SEED p t dx dz).1 = true ∧
    (check_movement pn SEED p t dx dz).2.1 =
      { p with last_collision := CollisionReason.walkableSlope } := by
  unfold check_movement
  dsimp only
  rw [hw]
  simp

theorem check_movement_blocked (pn : Pnoise) (SEED : ℤ) (p : Player)
    (t : Terrain) (dx dz : ℚ)
    (h1 : STEP_HEIGHT < height_diff_at pn SEED p t dx dz)
    (h2 : 1 / 2500 < target_slope_sq pn SEED p t dx dz)
    (h3 : p.on_ground = true) :
    (check_movement pn SEED p t dx dz).1 = false ∧
    (check_movement pn SEED p t dx dz).2.1 =
      { p with last_collision := CollisionReason.blockedBySlope } := by
  have hstep : (0 : ℚ) < STEP_HEIGHT := by norm_num [STEP_HEIGHT]
  have h0 : ¬ height_diff_at pn SEED p t dx dz < 0 := by
    push_neg
    linarith
  have hw := can_walk_over_false_of_blocked pn SEED p t dx dz h1 h2
  have hkeys := walk_state_keys pn SEED p t dx dz h0
  have hsu := can_step_up_cached pn SEED p _ dx dz _ _ hkeys.1 hkeys.2
  have hju := can_jump_over_cached pn SEED p _ dx dz _ _ hkeys.1 hkeys.2
  have hhd : STEP_HEIGHT <
      (get_height pn SEED (get_height pn SEED t p.pos0 p.pos2).2
          (p.pos0 + dx) (p.pos2 + dz)).1
        - (get_height pn SEED t p.pos0 p.pos2).1 := h1
  unfold check_movement
  dsimp only
  rw [hw]
  simp only [Bool.false_eq_true, if_false]
  rw [hsu]
  dsimp only
  have hsub : (if |dx| < 1 / 1000 ∧ |dz| < 1 / 1000 then false
      else decide (0 <
          (get_height pn SEED (get_height pn SEED t p.pos0 p.pos2).2
              (p.pos0 + dx) (p.pos2 + dz)).1
            - (get_height pn SEED t p.pos0 p.pos2).1 ∧
        (get_height pn SEED (get_height pn SEED t p.pos0 p.pos2).2
              (p.pos0 + dx) (p.pos2 + dz)).1
            - (get_height pn SEED t p.pos0 p.pos2).1
          ≤ STEP_HEIGHT)) = false := by
    split_ifs
    · rfl
    · simp only [decide_eq_false_iff_not]
      rintro ⟨-, hle⟩
      exact absurd hhd (not_lt.mpr hle)
  rw [hsub]
  simp only [Bool.false_eq_true, if_false]
  rw [hju]
  dsimp only
  simp [h3]

theorem can_step_up_imp_walk_over (pn : Pnoise) (SEED : ℤ) (p : Player)
    (t : Terrain) (dx dz : ℚ)
    (h : (can_step_up pn SEED p t dx dz).1 = true) :
    (can_walk_over pn SEED p t dx dz).1 = true := by
  unfold can_step_up at h
  split_ifs at h with he
  dsimp only at h
  simp only [decide_eq_true_eq] at h
  exact can_walk_over_true_of_step pn SEED p t dx dz h.1 h.2

theorem update_blocked_zeroes (pn : Pnoise) (SEED : ℤ) (p : Player)
    (t : Terrain) (dt : ℚ) (keys : Keys) (dx dz : ℚ)
    (hmd : ¬ ((dx, dz) : ℚ × ℚ) = (0, 0))
    (h1 : STEP_HEIGHT < height_diff_at pn SEED p t dx dz)
    (h2 : 1 / 2500 < target_slope_sq pn SEED p t dx dz)
    (h3 : p.on_ground = true) :
    (update_normal_movement pn SEED p t dt keys (dx, dz)).1.pos0
        = p.pos0 + p.vel0 * dt ∧
    (update_normal_movement pn SEED p t dt keys (dx, dz)).1.pos2
        = p.pos2 + p.vel2 * dt := by
  have hcb := check_movement_blocked pn SEED p t dx dz h1 h2 h3
  unfold update_normal_movement
  dsimp only
  rw [if_neg hmd]
  simp only [hcb.1, hcb.2, Bool.false_eq_true, if_false]
  constructor
  · rw [(resolve_spec pn SEED _ _ keys).2.1]
    dsimp only
    ring
  · rw [(resolve_spec pn SEED _ _ keys).2.2.1]
    dsimp only
    ring

/-- C4 counterexample: with the step terrain (current height 0, target
height exactly `STEP_HEIGHT = 0.5`, squared slope 1/4 i.e. ≈ 87.7° at the
target, far above max climb), the displacement is not walk-over-allowed in
the specification's sense (uphill with slope above max climb), the height
difference is exactly the step height — yet `check_movement` accepts it
through the walk-over branch (whose source condition also admits
`|heightDiff| ≤ STEP_HEIGHT`), records "Walkable slope" rather than
"Stepped up", and performs NO vertical snap: the vertical position is
unchanged instead of raised by heightDiff = 0.5. -/
theorem C4_counterexample :
    height_diff_at pnStepA 0 basePlayer (terrain0 1 false) 1 0 = STEP_HEIGHT ∧
    target_slope_sq pnStepA 0 basePlayer (terrain0 1 false) 1 0 = 1 / 4 ∧
    spec_walk_over 0 (1 / 2) (1 / 4) = false ∧
    basePlayer.on_ground = true ∧
    (check_movement pnStepA 0 basePlayer (terrain0 1 false) 1 0).1 = true ∧
    (check_movement pnStepA 0 basePlayer (terrain0 1 false) 1 0).2.1.pos1
      = basePlayer.pos1 ∧
    (check_movement pnStepA 0 basePlayer (terrain0 1 false) 1 0).2.1.last_collision
      = CollisionReason.walkableSlope := by
  refine ⟨?_, ?_, ?_, rfl, ?_, ?_, ?_⟩ <;>
    norm_num [height_diff_at, target_slope_sq, spec_walk_over, check_movement,
      can_walk_over, can_step_up, can_jump_over, slope_sq, get_height, terrain0,
      round2, roundHalfEven, qfloor, pyInt, alookup, pnStepA, basePlayer,
      TERRAIN_SCALE, HEIGHT_SCALE, STEP_HEIGHT, MAX_JUMP_HEIGHT, abs_le,
      Prod.ext_iff]

/-- C4 amended: (1) whenever the step-up test succeeds the walk-over test
already succeeds, so the step-up branch of `check_movement` is
unreachable and its vertical snap never executes; (2) a displacement with
`0 < heightDiff ≤ stepHeight` is accepted, but through the walk-over
branch and with the vertical position unchanged; (3) at the boundary, a
target more than `stepHeight` above with squared slope above the
max-climb bound and the player grounded is blocked; and (4) in that
blocked case the Grounded tick zeroes the displacement, moving the
horizontal position only by velocity × dt. -/
theorem C4_amended_collision_policy (pn : Pnoise) (SEED : ℤ) :
    (∀ (p : Player) (t : Terrain) (dx dz : ℚ),
        (can_step_up pn SEED p t dx dz).1 = true →
        (can_walk_over pn SEED p t dx dz).1 = true)
    ∧ (∀ (p : Player) (t : Terrain) (dx dz : ℚ),
        0 < height_diff_at pn SEED p t dx dz →
        height_diff_at pn SEED p t dx dz ≤ STEP_HEIGHT →
        (check_movement pn SEED p t dx dz).1 = true ∧
        (check_movement pn SEED p t dx dz).2.1.pos1 = p.pos1 ∧
        (check_movement pn SEED p t dx dz).2.1.last_collision
          = CollisionReason.walkableSlope)
    ∧ (∀ (p : Player) (t : Terrain) (dx dz : ℚ),
        STEP_HEIGHT < height_diff_at pn SEED p t dx dz →
        1 / 2500 < target_slope_sq pn SEED p t dx dz →
        p.on_ground = true →
        (check_movement pn SEED p t dx dz).1 = false ∧
        (check_movement pn SEED p t dx dz).2.1.pos1 = p.pos1 ∧
        (check_movement pn SEED p t dx dz).2.1.last_collision
          = CollisionReason.blockedBySlope)
    ∧ ∀ (p : Player) (t : Terrain) (dt : ℚ) (keys : Keys) (dx dz : ℚ),
        ((dx, dz) : ℚ × ℚ) ≠ (0, 0) →
        STEP_HEIGHT < height_diff_at pn SEED p t dx dz →
        1 / 2500 < target_slope_sq pn SEED p t dx dz →
        p.on_ground = true →
        (update_normal_movement pn SEED p t dt keys (dx, dz)).1.pos0
            = p.pos0 + p.vel0 * dt ∧
        (update_normal_movement pn SEED p t dt keys (dx, dz)).1.pos2
            = p.pos2 + p.vel2 * dt := by
  refine ⟨fun p t dx dz h => can_step_up_imp_walk_over pn SEED p t dx dz h,
    fun p t dx dz h0 h1 => ?_, fun p t dx dz h1 h2 h3 => ?_,
    fun p t dt keys dx dz hmd h1 h2 h3 =>
      update_blocked_zeroes pn SEED p t dt keys dx dz hmd h1 h2 h3⟩
  · have hc := check_movement_walkover pn SEED p t dx dz
      (can_walk_over_true_of_step pn SEED p t dx dz h0 h1)
    exact ⟨hc.1, by rw [hc.2], by rw [hc.2]⟩
  · have hc := check_movement_blocked pn SEED p t dx dz h1 h2 h3
    exact ⟨hc.1, by rw [hc.2], by rw [hc.2]⟩

/-- Witness for C4 amended, discharging each hypothesis at concrete step
terrains: step height 0.25 for the step-up test, 0.5 for the accepted
boundary, 0.6 with squared slope 9/25 for the blocked case. -/
theorem C4_amended_collision_policy_witness :
    ((can_walk_over pnStepC 0 basePlayer (terrain0 1 false) 1 0).1 = true) ∧
    ((check_movement pnStepA 0 basePlayer (terrain0 1 false) 1 0).1 = true ∧
     (check_movement pnStepA 0 basePlayer (terrain0 1 false) 1 0).2.1.pos1
        = basePlayer.pos1 ∧
     (check_movement pnStepA 0 basePlayer (terrain0 1 false) 1 0).2.1.last_collision
        = CollisionReason.walkableSlope) ∧
    ((check_movement pnStepB 0 basePlayer (terrain0 1 false) 1 0).1 = false ∧
     (check_movement pnStepB 0 basePlayer (terrain0 1 false) 1 0).2.1.pos1
        = basePlayer.pos1 ∧
     (check_movement pnStepB 0 basePlayer (terrain0 1 false) 1 0).2.1.last_collision
        = CollisionReason.blockedBySlope) ∧
    ((update_normal_movement pnStepB 0 basePlayer (terrain0 1 false) (2 / 125)
          noKeys (1, 0)).1.pos0
        = basePlayer.pos0 + basePlayer.vel0 * (2 / 125) ∧
     (update_normal_movement pnStepB 0 basePlayer (terrain0 1 false) (2 / 125)
          noKeys (1, 0)).1.pos2
        = basePlayer.pos2 + basePlayer.vel2 * (2 / 125)) :=
  ⟨(C4_amended_collision_policy pnStepC 0).1 basePlayer (terrain0 1 false) 1 0
      (by norm_num [can_step_up, get_height, terrain0, round2, roundHalfEven,
        qfloor, pyInt, alookup, pnStepC, basePlayer, TERRAIN_SCALE, HEIGHT_SCALE,
        STEP_HEIGHT, Prod.ext_iff]),
   (C4_amended_collision_policy pnStepA 0).2.1 basePlayer (terrain0 1 false) 1 0
      (by norm_num [height_diff_at, get_height, terrain0, round2, roundHalfEven,
        qfloor, pyInt, alookup, pnStepA, basePlayer, TERRAIN_SCALE, HEIGHT_SCALE,
        Prod.ext_iff])
      (by norm_num [height_diff_at, get_height, terrain0, round2, roundHalfEven,
        qfloor, pyInt, alookup, pnStepA, basePlayer, TERRAIN_SCALE, HEIGHT_SCALE,
        STEP_HEIGHT, Prod.ext_iff]),
   (C4_amended_collision_policy pnStepB 0).2.2.1 basePlayer (terrain0 1 false) 1 0
      (by norm_num [height_diff_at, get_height, terrain0, round2, roundHalfEven,
        qfloor, pyInt, alookup, pnStepB, basePlayer, TERRAIN_SCALE, HEIGHT_SCALE,
        STEP_HEIGHT, Prod.ext_iff])
      (by norm_num [target_slope_sq, slope_sq, get_height, terrain0, round2,
        roundHalfEven, qfloor, pyInt, alookup, pnStepB, basePlayer,
        TERRAIN_SCALE, HEIGHT_SCALE, Prod.ext_iff])
      rfl,
   (C4_amended_collision_policy pnStepB 0).2.2.2 basePlayer (terrain0 1 false)
      (2 / 125) noKeys 1 0
      (by norm_num [Prod.ext_iff])
      (by norm_num [height_diff_at, get_height, terrain0, round2, roundHalfEven,
        qfloor, pyInt, alookup, pnStepB, basePlayer, TERRAIN_SCALE, HEIGHT_SCALE,
        STEP_HEIGHT, Prod.ext_iff])
      (by norm_num [target_slope_sq, slope_sq, get_height, terrain0, round2,
        roundHalfEven, qfloor, pyInt, alookup, pnStepB, basePlayer,
        TERRAIN_SCALE, HEIGHT_SCALE, Prod.ext_iff])
      rfl⟩

/-- C6: the classification thresholds form seven contiguous,
non-overlapping, ascending bands covering [0, 1] (each score in [0, 1]
lies in exactly one band); `get_terrain_type` maps every input to the
label of the band containing its normalized weighted score, hence always
to exactly one of the seven labels Basin, Plains, Hills, Valley, Plateau,
Mountains, Canyon; and when the noise values lie in [-1, 1] the normalized
score indeed lies in [0, 1]. -/
theorem C6_classification_totality :
    (∀ i : ℕ, i < 6 → thr i < thr (i + 1)) ∧ thr 6 < 1
    ∧ (∀ s : ℚ, 0 ≤ s → s ≤ 1 →
        inBand (bandIndexOf s) s ∧ bandIndexOf s < 7 ∧
          ∀ j : ℕ, j < 7 → inBand j s → j = bandIndexOf s)
    ∧ (∀ (pn : Pnoise) (SEED : ℤ) (t : Terrain) (x z : ℚ),
        get_terrain_type pn SEED t x z
          = bandLabel (bandIndexOf (normalized_score pn SEED t x z)))
    ∧ (∀ (pn : Pnoise) (SEED : ℤ) (t : Terrain) (x z : ℚ),
        get_terrain_type pn SEED t x z ∈
          ([BASIN, PLAINS, HILLS, VALLEY, PLATEAU, MOUNTAINS, CANYON] : List ℕ))
    ∧ ∀ (pn : Pnoise) (SEED : ℤ) (t : Terrain) (x z : ℚ),
        (∀ (a b : ℚ) (o : ℕ) (pe la : ℚ),
          -1 ≤ pn a b o pe la ∧ pn a b o pe la ≤ 1) →
        0 ≤ normalized_score pn SEED t x z ∧
          normalized_score pn SEED t x z ≤ 1 := by
  refine ⟨?_, ?_, ?_, ?_, ?_, ?_⟩
  · intro i hi
    interval_cases i <;> norm_num [thr]
  · norm_num [thr]
  · intro s h0 h1
    exact ⟨band_mem s h0 h1, bandIndexOf_lt s, fun j hj hb => band_unique s j hj hb⟩
  · intro pn SEED t x z
    unfold get_terrain_type bandIndexOf bandLabel
    dsimp only
    split_ifs <;> rfl
  · intro pn SEED t x z
    unfold get_terrain_type
    dsimp only
    split_ifs <;> simp
  · intro pn SEED t x z hb
    have h1 := hb (x / t.block_size * TERRAIN_SCALE * (1 / 10) + SEED * 2)
      (z / t.block_size * TERRAIN_SCALE * (1 / 10) + SEED * 2) 1 (1 / 2) 2
    have h2 := hb (x / t.block_size * TERRAIN_SCALE * (1 / 2) + SEED * 3)
      (z / t.block_size * TERRAIN_SCALE * (1 / 2) + SEED * 3) 2 (1 / 2) 2
    have h3 := hb (x / t.block_size * TERRAIN_SCALE * 2 + SEED * 4)
      (z / t.block_size * TERRAIN_SCALE * 2 + SEED * 4) 3 (1 / 2) 2
    unfold normalized_score terrain_score
    dsimp only
    constructor <;> linarith [h1.1, h1.2, h2.1, h2.2, h3.1, h3.2]

/-- Witness for C6: the score 1/2 lies in exactly one band (index 3), and
over the constantly-zero noise the normalized score is in [0, 1]. -/
theorem C6_classification_totality_witness :
    (inBand (bandIndexOf (1 / 2)) (1 / 2) ∧ bandIndexOf (1 / 2) < 7 ∧
      ∀ j : ℕ, j < 7 → inBand j (1 / 2) → j = bandIndexOf (1 / 2)) ∧
    (0 ≤ normalized_score pnFlat 0 (terrain0 1 true) 0 0 ∧
      normalized_score pnFlat 0 (terrain0 1 true) 0 0 ≤ 1) :=
  ⟨C6_classification_totality.2.2.1 (1 / 2) (by norm_num) (by norm_num),
   C6_classification_totality.2.2.2.2.2 pnFlat 0 (terrain0 1 true) 0 0
     (fun a b o pe la => by norm_num [pnFlat])⟩

end Tsing
